import Mathlib

/-!
Shallow embedding of the AllEase/backend authentication and session core.

Sources embedded:
  * `src/mongodb-user-models.py` — `UserAddress`, `UserProfile`, `User`,
    `UserSession`, `LoginAttempt`, and the pre-save signal handlers
    `create_user_profile` / `update_timestamp`.
  * `src/accounts/models.py` — `UserLogin` (werkzeug password hashing).
  * `src/accounts/views.py` — `SignupView.post`, `LoginView.post`,
    `generate_jwt`.

Modelling conventions:
  * `datetime.utcnow()` values are modelled as `Int` timestamps (seconds);
    `timedelta(hours=h)` is `h * 3600`.
  * Optional document fields (`StringField()` with no value, `DateTimeField()`
    unset) are `Option _`; Python truthiness of an optional string field
    (`None` and `""` are falsy) is `optStrFalsy`.
  * The random draws of `secrets.choice` / `secrets.token_urlsafe` are
    external inputs: a function that draws a fresh value takes it as an
    explicit argument standing for the outcome of the draw (for
    `generate_referral_code`, the outcome of the collision-retry loop).
  * Cryptographic primitives (werkzeug password hashing, PyJWT signing) are
    modelled as injective tagged-string stand-ins: the claims under study
    only depend on hash-check round-trip behaviour and on tokens being
    opaque strings, not on cryptographic strength.
  * A raised Python exception escaping a view is `Except.error`; a normal
    HTTP response is `Except.ok`.
-/

namespace AllEase

/-- Python truthiness of an optional string field: `None` and `""` are falsy. -/
def optStrFalsy : Option String → Bool
  | none => true
  | some s => s.isEmpty

/-- ASCII lowercasing of one character, as Python `str.lower` acts on the
ASCII identifiers this codebase stores. -/
def lowerChar (c : Char) : Char :=
  if 'A' ≤ c ∧ c ≤ 'Z' then Char.ofNat (c.toNat + 32) else c

/-- Python `email.lower()` on the ASCII emails and usernames stored here. -/
def lowerStr (s : String) : String :=
  String.mk (s.data.map lowerChar)

/-! ## `UserAddress` (embedded document, src/mongodb-user-models.py lines 11-43)

Only the fields the embedded operations read or write are carried; the
remaining postal fields are inert payload for every code path under study. -/

structure UserAddress where
  address_type : String
  label : String
  is_default : Bool
deriving Repr, DecidableEq

/-- The keyword-argument dict passed to `User.add_address`; `is_default` is
`Option Bool` because the key may be absent (`dict.get` returns `None`). -/
structure AddressData where
  address_type : String
  label : String
  is_default : Option Bool
deriving Repr, DecidableEq

/-! ## `UserProfile` (embedded document, lines 46-77) -/

structure UserProfile where
  referral_code : Option String
  total_orders : Nat
  loyalty_points : Nat
deriving Repr, DecidableEq

/-- A freshly constructed `UserProfile()`: no referral code, zero counters. -/
def UserProfile.new : UserProfile :=
  { referral_code := none, total_orders := 0, loyalty_points := 0 }

/-- `UserProfile.generate_referral_code` (lines 69-77): assigns a code only
when the stored one is falsy (`if not self.referral_code`).  `fresh` stands
for the outcome of the `secrets.choice` collision-retry loop (an 8-character
uppercase/digit string not used by any existing account). -/
def UserProfile.generate_referral_code (p : UserProfile) (fresh : String) :
    UserProfile :=
  if optStrFalsy p.referral_code then { p with referral_code := some fresh }
  else p

/-! ## `User` (document, lines 80-272) -/

structure User where
  id : String
  email : String
  user_type : String
  email_verified : Bool
  is_active : Bool
  addresses : List UserAddress
  profile : Option UserProfile
  updated_at : Int
  email_verification_token : Option String
deriving Repr, DecidableEq

/-- `User.verify_email` returns `True`/`False`; the model also records the
post-call document state and whether `self.save()` was invoked. -/
structure VerifyOutcome where
  user : User
  saved : Bool
  result : Bool
deriving Repr, DecidableEq

/-- `User.verify_email` (lines 191-198): plain `==` between the stored token
and the argument; on match set the verified flag, clear the token and save;
otherwise return `False` touching nothing. -/
def User.verify_email (u : User) (token : Option String) : VerifyOutcome :=
  if u.email_verification_token = token then
    { user := { u with email_verified := true, email_verification_token := none },
      saved := true, result := true }
  else
    { user := u, saved := false, result := false }

/-- `User.add_address` (lines 200-214).  Force `is_default` on a first
address, clear every existing default when the (possibly forced) flag is
truthy, then append `UserAddress(**address_data)` and save.  Returns the
post-call document and the new address, as the source returns `new_address`. -/
def User.add_address (u : User) (address_data : AddressData) :
    User × UserAddress :=
  let data :=
    if u.addresses.isEmpty then { address_data with is_default := some true }
    else address_data
  let addrs :=
    if data.is_default.getD false then
      u.addresses.map (fun a => { a with is_default := false })
    else u.addresses
  let new_address : UserAddress :=
    { address_type := data.address_type, label := data.label,
      is_default := data.is_default.getD false }
  ({ u with addresses := addrs ++ [new_address] }, new_address)

/-- `User.get_default_address` (lines 216-221): first address whose
`is_default` is set, else `addresses[0]`, else `None`. -/
def User.get_default_address (u : User) : Option UserAddress :=
  match u.addresses.find? (fun a => a.is_default) with
  | some a => some a
  | none => u.addresses.head?

/-- `User.clean` (lines 223-233): bump `updated_at`, lowercase a truthy
email, and for a customer with a falsy referral code call
`generate_referral_code`.  When `user_type == 'customer'` and `profile` is
`None`, the source dereferences `self.profile.referral_code` and raises
`AttributeError`; that exceptional path is `none`. -/
def User.clean (u : User) (now : Int) (fresh : String) : Option User :=
  let u1 := { u with updated_at := now }
  let u2 := if u1.email.isEmpty then u1 else { u1 with email := lowerStr u1.email }
  if u2.user_type = "customer" then
    match u2.profile with
    | none => none
    | some p =>
      if optStrFalsy p.referral_code then
        some { u2 with profile := some (p.generate_referral_code fresh) }
      else some u2
  else some u2

/-- Signal handler `create_user_profile` (lines 386-390): when the document
has no profile (`if not document.profile`), attach a fresh `UserProfile` and
generate a referral code for it — with no check of `user_type`. -/
def create_user_profile (u : User) (fresh : String) : User :=
  match u.profile with
  | none => { u with profile := some (UserProfile.new.generate_referral_code fresh) }
  | some _ => u

/-- Signal handler `update_timestamp` (lines 392-394). -/
def update_timestamp (u : User) (now : Int) : User :=
  { u with updated_at := now }

/-- The `User.save()` pipeline: mongoengine fires the connected `pre_save`
signals (`create_user_profile`, then `update_timestamp`, lines 397-398), then
validation runs `clean`.  `fresh1`/`fresh2` are the referral codes the two
possible `generate_referral_code` call sites would draw. -/
def User.save_pipeline (u : User) (now : Int) (fresh1 fresh2 : String) :
    Option User :=
  let u1 := create_user_profile u fresh1
  let u2 := update_timestamp u1 now
  u2.clean now fresh2

/-! ## `UserSession` (document, lines 275-322) -/

structure UserSession where
  user_id : String
  session_key : String
  created_at : Int
  last_activity : Int
  expires_at : Int
  is_active : Bool
  logout_at : Option Int
deriving Repr, DecidableEq

/-- `UserSession.is_expired` (lines 314-316): `datetime.utcnow() > self.expires_at`,
a strict comparison. -/
def UserSession.is_expired (s : UserSession) (now : Int) : Bool :=
  s.expires_at < now

/-- `UserSession.logout` (lines 318-322): unconditionally set
`is_active = False` and `logout_at = utcnow()`, then save. -/
def UserSession.logout (s : UserSession) (now : Int) : UserSession :=
  { s with is_active := false, logout_at := some now }

/-! ## `LoginAttempt` (document, lines 325-380) -/

structure LoginAttempt where
  email : String
  ip_address : String
  success : Bool
  attempted_at : Int
deriving Repr, DecidableEq

/-- `LoginAttempt.record_attempt` (lines 357-365): append a record with the
email lowercased. -/
def LoginAttempt.record_attempt (log : List LoginAttempt)
    (email ip_address : String) (success : Bool) (now : Int) :
    List LoginAttempt :=
  log ++ [{ email := lowerStr email, ip_address := ip_address,
            success := success, attempted_at := now }]

/-- `LoginAttempt.get_recent_failures` (lines 367-375): count of records for
the lowercased email with `success == False` and
`attempted_at >= utcnow() - timedelta(hours=hours)`. -/
def LoginAttempt.get_recent_failures (log : List LoginAttempt)
    (email : String) (now : Int) (hours : Int) : Nat :=
  (log.filter (fun a =>
    a.email == lowerStr email && a.success == false &&
      decide (now - hours * 3600 ≤ a.attempted_at))).length

/-- `LoginAttempt.is_blocked` (lines 377-380):
`get_recent_failures(email, hours) >= max_attempts`. -/
def LoginAttempt.is_blocked (log : List LoginAttempt) (email : String)
    (now : Int) (max_attempts : Nat) (hours : Int) : Bool :=
  max_attempts ≤ LoginAttempt.get_recent_failures log email now hours

/-! ## `UserLogin` (src/accounts/models.py) and the views (src/accounts/views.py) -/

/-- Stand-in for werkzeug `generate_password_hash`: an injective tag of the
plaintext, so that `check_password_hash (hash p) q` succeeds exactly for the
original plaintext — the only behaviour the views rely on. -/
def generate_password_hash (plaintext : String) : String :=
  "pbkdf2-sha256$" ++ plaintext

/-- Stand-in for werkzeug `check_password_hash`. -/
def check_password_hash (stored plaintext : String) : Bool :=
  stored == generate_password_hash plaintext

structure UserLogin where
  id : String
  username : String
  email : String
  password : String
deriving Repr, DecidableEq

/-- `UserLogin.set_password` (src/accounts/models.py lines 13-14). -/
def UserLogin.set_password (u : UserLogin) (password : String) : UserLogin :=
  { u with password := generate_password_hash password }

/-- `UserLogin.check_password` (src/accounts/models.py lines 16-17). -/
def UserLogin.check_password (u : UserLogin) (password : String) : Bool :=
  check_password_hash u.password password

/-- `generate_jwt` (src/accounts/views.py lines 14-21): an opaque signed
bearer string over the user id; payload timestamps and the HS256 signature do
not affect the views' control flow, so the token is an injective tag of the
user id. -/
def generate_jwt (user_id : String) : String :=
  "jwt$HS256$" ++ user_id

/-- A `JsonResponse` as the views build them: either a
`{"message": ..., "token": ...}` success body or an `{"error": ...}` body,
with the HTTP status code. -/
inductive HttpResponse where
  | success (message : String) (token : String) (status : Nat)
  | failure (error : String) (status : Nat)
deriving Repr, DecidableEq

/-- `UserLogin.objects(username=...).first()` over the stored collection. -/
def findByUsername (db : List UserLogin) (username : String) :
    Option UserLogin :=
  db.find? (fun u => u.username == username)

/-- `user.save()` for `UserLogin`: mongoengine enforces the `unique=True`
constraints on `username` and `email`; a violated constraint raises
`NotUniqueError` (`Except.error`), otherwise the document is inserted. -/
def saveUserLogin (db : List UserLogin) (u : UserLogin) :
    Except String (List UserLogin) :=
  if db.any (fun v => v.username == u.username || v.email == u.email) then
    Except.error "NotUniqueError"
  else
    Except.ok (db ++ [u])

/-- `SignupView.post` (src/accounts/views.py lines 24-38): a duplicate
*username* gets the typed 400 response; otherwise the new document is saved —
and any `NotUniqueError` the save raises (e.g. a duplicate email) is not
caught, so it escapes the view as `Except.error`.  `new_id` stands for the
generated primary key.  Returns the response together with the post-request
collection. -/
def signupPost (db : List UserLogin) (new_id username email password : String) :
    Except String (HttpResponse × List UserLogin) :=
  if (findByUsername db username).isSome then
    Except.ok (HttpResponse.failure "Username already exists" 400, db)
  else
    match saveUserLogin db
        ((UserLogin.mk new_id username email "").set_password password) with
    | Except.error e => Except.error e
    | Except.ok db1 =>
      Except.ok (HttpResponse.success "Signup successful" (generate_jwt new_id) 201, db1)

/-- `LoginView.post` (src/accounts/views.py lines 41-51): look the user up by
username; `if not user or not user.check_password(password)` collapses both
failure cases into one 401 response; otherwise issue a token. -/
def loginPost (db : List UserLogin) (username password : String) :
    HttpResponse :=
  match findByUsername db username with
  | none => HttpResponse.failure "Invalid credentials" 401
  | some user =>
    if user.check_password password then
      HttpResponse.success "Login successful" (generate_jwt user.id) 200
    else
      HttpResponse.failure "Invalid credentials" 401

/-! ## Derived notions and concrete fixtures -/

/-- Number of addresses flagged default in a list. -/
def countDefaults (addrs : List UserAddress) : Nat :=
  (addrs.filter (fun a => a.is_default)).length

def addrHome : UserAddress :=
  { address_type := "home", label := "Home", is_default := false }

def addrWork : UserAddress :=
  { address_type := "work", label := "Work", is_default := true }

def homeData : AddressData :=
  { address_type := "home", label := "Home", is_default := none }

/-- A customer account holding two addresses and a pending verification token. -/
def sampleUser : User :=
  { id := "u1", email := "ann@x.com", user_type := "customer",
    email_verified := false, is_active := true,
    addresses := [addrHome, addrWork], profile := some UserProfile.new,
    updated_at := 0, email_verification_token := some "tok123" }

/-- A customer account with no addresses and no verification token issued. -/
def freshUser : User :=
  { id := "u2", email := "ben@x.com", user_type := "customer",
    email_verified := false, is_active := true,
    addresses := [], profile := some UserProfile.new,
    updated_at := 0, email_verification_token := none }

/-- A vendor account whose `profile` field was left unset. -/
def vendorNoProfile : User :=
  { id := "v1", email := "shop@x.com", user_type := "vendor",
    email_verified := false, is_active := true,
    addresses := [], profile := none,
    updated_at := 0, email_verification_token := none }

/-- A live session whose expiry equals its creation time (`ttl = 0`). -/
def zeroTtlSession : UserSession :=
  { user_id := "u1", session_key := "sk0", created_at := 0,
    last_activity := 0, expires_at := 0, is_active := true,
    logout_at := none }

/-- Five failed attempts for `ann@x.com`, all within an hour of time 600. -/
def fiveFailures : List LoginAttempt :=
  [{ email := "ann@x.com", ip_address := "1.2.3.4", success := false, attempted_at := 100 },
   { email := "ann@x.com", ip_address := "1.2.3.4", success := false, attempted_at := 200 },
   { email := "ann@x.com", ip_address := "1.2.3.4", success := false, attempted_at := 300 },
   { email := "ann@x.com", ip_address := "1.2.3.4", success := false, attempted_at := 400 },
   { email := "ann@x.com", ip_address := "1.2.3.4", success := false, attempted_at := 500 }]

/-- A stored `UserLogin` for `ann` whose password is `s3cret`. -/
def annLogin : UserLogin :=
  (UserLogin.mk "u9" "ann" "ann@x.com" "").set_password "s3cret"

/-- A stored `UserLogin` for `bob` whose password is `hunter2`. -/
def bobLogin : UserLogin :=
  (UserLogin.mk "u7" "bob" "bob@x.com" "").set_password "hunter2"

/-! ## Theorems -/

theorem clean_shape (u : User) (now : Int) (fresh : String) (v : User)
    (hv : u.clean now fresh = some v) :
    v.addresses = u.addresses ∧ v.email_verified = u.email_verified ∧
    v.email_verification_token = u.email_verification_token ∧
    v.user_type = u.user_type ∧ v.is_active = u.is_active ∧ v.id = u.id := by
  unfold User.clean at hv
  cases hp : u.profile with
  | none =>
    by_cases he : u.email.isEmpty <;> by_cases ht : u.user_type = "customer" <;>
      simp [he, ht, hp] at hv <;> subst hv <;> simp [ht]
  | some p =>
    by_cases he : u.email.isEmpty <;> by_cases ht : u.user_type = "customer" <;>
      by_cases hc : optStrFalsy p.referral_code <;>
      simp [he, ht, hp, hc] at hv <;> subst hv <;> simp [ht]

theorem save_pipeline_shape (u : User) (now : Int) (f1 f2 : String) (v : User)
    (hv : u.save_pipeline now f1 f2 = some v) :
    v.addresses = u.addresses ∧ v.email_verified = u.email_verified ∧
    v.email_verification_token = u.email_verification_token ∧
    v.user_type = u.user_type ∧ v.is_active = u.is_active ∧ v.id = u.id := by
  simp only [User.save_pipeline] at hv
  have h := clean_shape _ now f2 v hv
  cases hp : u.profile <;>
    simp [create_user_profile, update_timestamp, hp] at h <;> exact h

/-- C9: `get_default_address` follows exactly the fallback chain — the first
address whose `is_default` flag is true when one exists, otherwise the first
address of a non-empty list, otherwise none. -/
theorem get_default_address_fallback (u : User) :
    (∀ a, u.addresses.find? (fun x => x.is_default) = some a →
      u.get_default_address = some a) ∧
    (u.addresses.find? (fun x => x.is_default) = none →
      u.get_default_address = u.addresses.head?) ∧
    (u.addresses = [] → u.get_default_address = none) := by
  refine ⟨fun a h => ?_, fun h => ?_, fun h => ?_⟩
  · simp [User.get_default_address, h]
  · simp [User.get_default_address, h]
  · simp [User.get_default_address, h]

/-- Witness for C9 at a concrete account: the flagged address wins. -/
theorem get_default_address_fallback_witness :
    sampleUser.get_default_address = some addrWork :=
  (get_default_address_fallback sampleUser).1 addrWork (by decide)

/-- C7: `verify_email` succeeds — returning `True`, setting the verified
flag, clearing the stored token and saving — exactly when the supplied token
equals the stored one, and in every other case returns `False` leaving the
document untouched and unsaved.  The final conjunct checks the `save()` the
success path invokes: the save pipeline never disturbs `email_verified` or
`email_verification_token`. -/
theorem verify_email_exact_match (u : User) (token : Option String) :
    ((u.verify_email token).result = true ↔ u.email_verification_token = token) ∧
    (u.email_verification_token = token →
      u.verify_email token =
        { user := { u with email_verified := true, email_verification_token := none },
          saved := true, result := true }) ∧
    (u.email_verification_token ≠ token →
      u.verify_email token = { user := u, saved := false, result := false }) ∧
    (∀ (w : User) (now : Int) (f1 f2 : String) (v : User),
      w.save_pipeline now f1 f2 = some v →
      v.email_verified = w.email_verified ∧
      v.email_verification_token = w.email_verification_token) := by
  refine ⟨?_, ?_, ?_, fun w now f1 f2 v hv =>
    ⟨(save_pipeline_shape w now f1 f2 v hv).2.1,
     (save_pipeline_shape w now f1 f2 v hv).2.2.1⟩⟩ <;>
  · by_cases h : u.email_verification_token = token <;>
      simp [User.verify_email, h]

/-- Witness for C7 at a concrete account and its matching token. -/
theorem verify_email_exact_match_witness :
    sampleUser.verify_email (some "tok123") =
      { user := { sampleUser with
                    email_verified := true,
                    email_verification_token := none },
        saved := true, result := true } :=
  (verify_email_exact_match sampleUser (some "tok123")).2.1 rfl

/-- C10: an account whose stored `email_verification_token` is `None` is
verified by `verify_email(None)` — the comparison `None == None` succeeds, the
verified flag is set and the document is saved. -/
theorem verify_email_none_token_succeeds (u : User)
    (h : u.email_verification_token = none) :
    (u.verify_email none).result = true ∧
    (u.verify_email none).saved = true ∧
    (u.verify_email none).user.email_verified = true := by
  simp [User.verify_email, h]

/-- Witness for C10 at a concrete account that never had a token issued. -/
theorem verify_email_none_token_succeeds_witness :
    (freshUser.verify_email none).result = true ∧
    (freshUser.verify_email none).saved = true ∧
    (freshUser.verify_email none).user.email_verified = true :=
  verify_email_none_token_succeeds freshUser rfl

/-- Counterexample to C3: `logout` has no already-logged-out guard, so a
second call at a later instant overwrites `logout_at` — it is not left
unchanged from the first call. -/
theorem second_logout_changes_logout_at :
    ((zeroTtlSession.logout 50).logout 60).logout_at ≠
      (zeroTtlSession.logout 50).logout_at := by decide

/-- C3 (amended): `logout` never reports an error and unconditionally sets
`is_active := false` and `logout_at` to the time of the call, so a repeated
logout collapses to the latest call alone — `logout_at` tracks the second
call's time, and the operation is a no-op on repetition only when the clock
has not advanced. -/
theorem logout_tracks_latest_call (s : UserSession) (t1 t2 : Int) :
    (s.logout t1).logout t2 = s.logout t2 ∧
    ((s.logout t1).logout t2).is_active = false ∧
    ((s.logout t1).logout t2).logout_at = some t2 := by
  exact ⟨rfl, rfl, rfl⟩

/-- Counterexample to C4: `is_expired` compares with strict `>`, so a session
whose `ttl` is 0 is NOT treated as expired at the instant equal to its expiry
time, contradicting invalidity "at or past" the expiry time. -/
theorem session_not_expired_at_expiry_instant :
    zeroTtlSession.expires_at ≤ 0 ∧ zeroTtlSession.is_expired 0 = false := by
  decide

/-- C4 (amended): `is_expired` is true exactly when the current instant is
strictly past `expires_at`, independent of `is_active`; hence a session
created with `ttl = 0` is expired at every instant strictly after its
creation time, but not at the creation instant itself. -/
theorem is_expired_strict_boundary (s : UserSession) (now : Int) :
    (s.is_expired now = true ↔ s.expires_at < now) ∧
    (∀ b, ({ s with is_active := b } : UserSession).is_expired now =
      s.is_expired now) ∧
    (s.expires_at = s.created_at → s.created_at < now →
      s.is_expired now = true) := by
  refine ⟨by simp [UserSession.is_expired], fun b => rfl, fun h1 h2 => ?_⟩
  simp [UserSession.is_expired, h1, h2]

/-- Witness for C4 (amended) at the `ttl = 0` session, one instant after
creation. -/
theorem is_expired_strict_boundary_witness :
    zeroTtlSession.is_expired 1 = true :=
  (is_expired_strict_boundary zeroTtlSession 1).2.2 rfl (by decide)

theorem countDefaults_append (xs ys : List UserAddress) :
    countDefaults (xs ++ ys) = countDefaults xs + countDefaults ys := by
  simp [countDefaults, List.filter_append]

theorem countDefaults_clear (xs : List UserAddress) :
    countDefaults (xs.map (fun a => { a with is_default := false })) = 0 := by
  induction xs with
  | nil => rfl
  | cons a xs ih => simp [countDefaults, List.filter_cons] at ih ⊢

theorem countDefaults_singleton (a : UserAddress) :
    countDefaults [a] = if a.is_default then 1 else 0 := by
  by_cases h : a.is_default <;> simp [countDefaults, List.filter_cons, h]

theorem add_address_preserves_one_default (u : User) (d : AddressData)
    (h : u.addresses = [] ∨ countDefaults u.addresses = 1) :
    countDefaults (u.add_address d).1.addresses = 1 := by
  rcases h with h | h
  · simp [User.add_address, h, countDefaults, List.filter_cons]
  · have hne : u.addresses.isEmpty = false := by
      cases hu : u.addresses with
      | nil => rw [hu] at h; simp [countDefaults] at h
      | cons x xs => rfl
    by_cases hd : d.is_default.getD false
    · simp [User.add_address, hne, hd, countDefaults_append,
        countDefaults_clear, countDefaults_singleton]
    · simp [User.add_address, hne, hd, countDefaults_append,
        countDefaults_singleton, h]

theorem add_address_fold_one_default (ds : List AddressData) (u : User)
    (h : countDefaults u.addresses = 1) :
    countDefaults
      ((ds.foldl (fun v d => (v.add_address d).1) u).addresses) = 1 := by
  induction ds generalizing u with
  | nil => simpa using h
  | cons d ds ih =>
    simp only [List.foldl_cons]
    exact ih _ (add_address_preserves_one_default u d (Or.inr h))

/-- C6: a first address is appended with `is_default` forced true whatever
the request asked; a later address added with `is_default` requested clears
every existing default in the same update; and starting from an empty list,
after every `add_address` exactly one address of the non-empty list is
default.  The final conjunct checks the `save()` the operation invokes: the
save pipeline never disturbs the address list. -/
theorem add_address_default_invariant (u : User) (d : AddressData) :
    (u.addresses = [] →
      (u.add_address d).1.addresses =
        [{ address_type := d.address_type, label := d.label, is_default := true }]) ∧
    (u.addresses ≠ [] → d.is_default = some true →
      (u.add_address d).1.addresses =
        u.addresses.map (fun a => { a with is_default := false }) ++
          [{ address_type := d.address_type, label := d.label, is_default := true }]) ∧
    (u.addresses = [] ∨ countDefaults u.addresses = 1 →
      countDefaults (u.add_address d).1.addresses = 1) ∧
    (∀ ds : List AddressData, u.addresses = [] → ds ≠ [] →
      countDefaults
        ((ds.foldl (fun v d2 => (v.add_address d2).1) u).addresses) = 1) ∧
    (∀ (w : User) (now : Int) (f1 f2 : String) (v : User),
      w.save_pipeline now f1 f2 = some v → v.addresses = w.addresses) := by
  refine ⟨fun h => ?_, fun hne hd => ?_, add_address_preserves_one_default u d,
    fun ds h hds => ?_,
    fun w now f1 f2 v hv => (save_pipeline_shape w now f1 f2 v hv).1⟩
  · simp [User.add_address, h]
  · have he : u.addresses.isEmpty = false := by
      cases hu : u.addresses with
      | nil => exact absurd hu hne
      | cons x xs => rfl
    simp [User.add_address, he, hd]
  · cases ds with
    | nil => exact absurd rfl hds
    | cons d2 ds2 =>
      simp only [List.foldl_cons]
      exact add_address_fold_one_default ds2 _
        (add_address_preserves_one_default u d2 (Or.inl h))

/-- Witness for C6: adding a first address that did not request default makes
it default, and the list then has exactly one default. -/
theorem add_address_default_invariant_witness :
    (freshUser.add_address homeData).1.addresses =
      [{ address_type := "home", label := "Home", is_default := true }] ∧
    countDefaults (freshUser.add_address homeData).1.addresses = 1 :=
  ⟨(add_address_default_invariant freshUser homeData).1 rfl,
   (add_address_default_invariant freshUser homeData).2.2.1 (Or.inl rfl)⟩

/-- C8: the login view is enumeration-safe — an unknown username and a known
username with a wrong password produce literally the same 401
`Invalid credentials` response, so the two failures are indistinguishable to
the caller. -/
theorem login_failure_indistinguishable (db1 db2 : List UserLogin)
    (un1 p1 un2 p2 : String) (acc : UserLogin)
    (h1 : findByUsername db1 un1 = none)
    (h2 : findByUsername db2 un2 = some acc)
    (h3 : acc.check_password p2 = false) :
    loginPost db1 un1 p1 = HttpResponse.failure "Invalid credentials" 401 ∧
    loginPost db2 un2 p2 = HttpResponse.failure "Invalid credentials" 401 ∧
    loginPost db1 un1 p1 = loginPost db2 un2 p2 := by
  have e1 : loginPost db1 un1 p1 = HttpResponse.failure "Invalid credentials" 401 := by
    simp [loginPost, h1]
  have e2 : loginPost db2 un2 p2 = HttpResponse.failure "Invalid credentials" 401 := by
    simp [loginPost, h2, h3]
  exact ⟨e1, e2, e1.trans e2.symm⟩

/-- Witness for C8: empty collection vs. `bob` with a wrong password. -/
theorem login_failure_indistinguishable_witness :
    loginPost [] "ghost" "pw" = HttpResponse.failure "Invalid credentials" 401 ∧
    loginPost [bobLogin] "bob" "wrongpw" =
      HttpResponse.failure "Invalid credentials" 401 ∧
    loginPost [] "ghost" "pw" = loginPost [bobLogin] "bob" "wrongpw" :=
  login_failure_indistinguishable [] [bobLogin] "ghost" "pw" "bob" "wrongpw"
    bobLogin rfl rfl (by decide)

/-- C2 (code evaluation): the signup view types only the duplicate-USERNAME
failure; signing up with a fresh username but an email already stored raises
`NotUniqueError` out of `user.save()` uncaught, escaping the view as a raw
persistence exception instead of any typed `DuplicateEmail` result. -/
theorem duplicate_email_escapes_as_not_unique_error :
    signupPost [bobLogin] "u8" "alice" "bob@x.com" "pw123" =
      Except.error "NotUniqueError" ∧
    signupPost [bobLogin] "u8" "bob" "other@x.com" "pw123" =
      Except.ok (HttpResponse.failure "Username already exists" 400, [bobLogin]) := by
  exact ⟨rfl, rfl⟩

/-- Counterexample to C1: the login view never consults the login-attempt
guard — with five failed attempts for `ann@x.com` recorded inside the
trailing hour (so `is_blocked` is true), a sixth attempt with the CORRECT
password returns `200 Login successful`, not any `AccountLocked` failure. -/
theorem login_ignores_lockout_counterexample :
    LoginAttempt.is_blocked fiveFailures "ann@x.com" 600 5 1 = true ∧
    loginPost [annLogin] "ann" "s3cret" =
      HttpResponse.success "Login successful" (generate_jwt "u9") 200 := by
  exact ⟨by decide, by decide⟩

/-- C1 (amended): `LoginAttempt.is_blocked` reports an email blocked exactly
when at least `max_attempts` failed attempts for the lowercased email lie in
the trailing window, but `LoginView.post` never consults it: whatever the
recorded attempt history says — even `is_blocked` true for the account's own
email — a login with the correct password succeeds with 200, and the password
IS checked. -/
theorem lockout_guard_unconsulted_by_login :
    (∀ (log : List LoginAttempt) (email : String) (now : Int)
        (max_attempts : Nat) (hours : Int),
      LoginAttempt.is_blocked log email now max_attempts hours = true ↔
        max_attempts ≤ LoginAttempt.get_recent_failures log email now hours) ∧
    (∀ (log : List LoginAttempt) (now : Int) (db : List UserLogin)
        (username password : String) (acc : UserLogin),
      LoginAttempt.is_blocked log acc.email now 5 1 = true →
      findByUsername db username = some acc →
      acc.check_password password = true →
      loginPost db username password =
        HttpResponse.success "Login successful" (generate_jwt acc.id) 200) := by
  constructor
  · intro log email now m hrs
    simp [LoginAttempt.is_blocked]
  · intro log now db un pw acc hblock hfind hpw
    simp [loginPost, hfind, hpw]

/-- Witness for C1 (amended): `ann` is blocked by the guard at time 600 yet
logs in successfully with her correct password. -/
theorem lockout_guard_unconsulted_by_login_witness :
    loginPost [annLogin] "ann" "s3cret" =
      HttpResponse.success "Login successful" (generate_jwt annLogin.id) 200 :=
  lockout_guard_unconsulted_by_login.2 fiveFailures 600 [annLogin] "ann"
    "s3cret" annLogin (by decide) rfl (by decide)

theorem clean_preserves_truthy_profile (u : User) (now : Int) (fresh : String)
    (p : UserProfile) (hp : u.profile = some p)
    (hcode : optStrFalsy p.referral_code = false) :
    (u.clean now fresh).map (fun v => v.profile) = some (some p) := by
  unfold User.clean
  by_cases he : u.email.isEmpty <;> by_cases ht : u.user_type = "customer" <;>
    simp [he, ht, hp, hcode]

theorem clean_isSome_of_profile_some (u : User) (now : Int) (fresh : String)
    (q : UserProfile) (hq : u.profile = some q) :
    (u.clean now fresh).isSome = true := by
  unfold User.clean
  by_cases he : u.email.isEmpty <;> by_cases ht : u.user_type = "customer" <;>
    by_cases hc : optStrFalsy q.referral_code <;> simp [he, ht, hq, hc]

theorem clean_customer_truthy (u : User) (now : Int) (fresh : String)
    (q : UserProfile) (hq : u.profile = some q)
    (ht : u.user_type = "customer") (hf : fresh.isEmpty = false) :
    ∃ r, (u.clean now fresh).map (fun v => v.profile) = some (some r) ∧
      optStrFalsy r.referral_code = false := by
  by_cases hc : optStrFalsy q.referral_code
  · refine ⟨{ q with referral_code := some fresh }, ?_, ?_⟩
    · unfold User.clean
      by_cases he : u.email.isEmpty <;>
        simp [he, ht, hq, hc, UserProfile.generate_referral_code]
    · simpa [optStrFalsy] using hf
  · refine ⟨q, ?_, by simpa using hc⟩
    unfold User.clean
    by_cases he : u.email.isEmpty <;> simp [he, ht, hq, hc]

/-- Counterexample to C5: a vendor account saved with its `profile` field
unset goes through the `create_user_profile` pre-save signal, which attaches
a profile and generates a referral code without any role check — a
code-assigning path that gives a referral code to a vendor. -/
theorem vendor_receives_referral_code :
    vendorNoProfile.user_type = "vendor" ∧
    vendorNoProfile.profile = none ∧
    (vendorNoProfile.save_pipeline 10 "AB12CD34" "EF56GH78").map
        (fun v => (v.user_type, v.profile)) =
      some ("vendor",
        some { referral_code := some "AB12CD34", total_orders := 0,
               loyalty_points := 0 }) := by
  exact ⟨rfl, rfl, rfl⟩

/-- C5 (amended): a referral code is assigned at most once — a truthy stored
code is never regenerated, by `generate_referral_code`'s own guard and along
the whole save pipeline — and it is assigned before the document is written:
the pipeline always completes, and for a customer it completes with a truthy
referral code.  `User.clean` assigns only for the customer role, but the
`create_user_profile` pre-save signal assigns a referral code to ANY account
whose `profile` is unset, whatever its role. -/
theorem referral_code_assignment_paths :
    (∀ (p : UserProfile) (fresh : String),
      optStrFalsy p.referral_code = false →
      p.generate_referral_code fresh = p) ∧
    (∀ (u : User) (now : Int) (f1 f2 : String) (p : UserProfile),
      u.profile = some p → optStrFalsy p.referral_code = false →
      (u.save_pipeline now f1 f2).map (fun v => v.profile) = some (some p)) ∧
    (∀ (u : User) (now : Int) (f1 f2 : String),
      (u.save_pipeline now f1 f2).isSome = true) ∧
    (∀ (u : User) (now : Int) (f1 f2 : String) (v : User),
      u.user_type = "customer" → f1.isEmpty = false → f2.isEmpty = false →
      u.save_pipeline now f1 f2 = some v →
      ∃ q, v.profile = some q ∧ optStrFalsy q.referral_code = false) ∧
    (∀ (u : User) (now : Int) (fresh : String),
      u.user_type ≠ "customer" →
      (u.clean now fresh).map (fun v => v.profile) = some u.profile) ∧
    (∀ (u : User) (fresh : String),
      u.profile = none →
      (create_user_profile u fresh).profile =
        some (UserProfile.new.generate_referral_code fresh) ∧
      (create_user_profile u fresh).user_type = u.user_type) := by
  refine ⟨?_, ?_, ?_, ?_, ?_, ?_⟩
  · intro p fresh h
    simp [UserProfile.generate_referral_code, h]
  · intro u now f1 f2 p hp hcode
    have h1 : create_user_profile u f1 = u := by
      simp [create_user_profile, hp]
    simp only [User.save_pipeline, h1]
    exact clean_preserves_truthy_profile _ now f2 p (by simp [update_timestamp, hp])
      hcode
  · intro u now f1 f2
    simp only [User.save_pipeline]
    cases hp : u.profile with
    | none =>
      exact clean_isSome_of_profile_some _ now f2
        (UserProfile.new.generate_referral_code f1)
        (by simp [update_timestamp, create_user_profile, hp])
    | some p =>
      exact clean_isSome_of_profile_some _ now f2 p
        (by simp [update_timestamp, create_user_profile, hp])
  · intro u now f1 f2 v ht hf1 hf2 hv
    simp only [User.save_pipeline] at hv
    cases hp : u.profile with
    | none =>
      obtain ⟨r, hr, hr2⟩ :=
        clean_customer_truthy (update_timestamp (create_user_profile u f1) now)
          now f2 (UserProfile.new.generate_referral_code f1)
          (by simp [update_timestamp, create_user_profile, hp])
          (by simp [update_timestamp, create_user_profile, ht, hp]) hf2
      rw [hv] at hr
      exact ⟨r, by simpa using hr, hr2⟩
    | some p =>
      obtain ⟨r, hr, hr2⟩ :=
        clean_customer_truthy (update_timestamp (create_user_profile u f1) now)
          now f2 p
          (by simp [update_timestamp, create_user_profile, hp])
          (by simp [update_timestamp, create_user_profile, ht, hp]) hf2
      rw [hv] at hr
      exact ⟨r, by simpa using hr, hr2⟩
  · intro u now fresh ht
    unfold User.clean
    by_cases he : u.email.isEmpty <;> simp [he, ht]
  · intro u fresh hp
    exact ⟨by simp [create_user_profile, hp], by simp [create_user_profile, hp]⟩

/-- Witness for C5 (amended): the signal path applied to the profile-less
vendor account assigns it a referral code while keeping its vendor role. -/
theorem referral_code_assignment_paths_witness :
    (create_user_profile vendorNoProfile "AB12CD34").profile =
      some (UserProfile.new.generate_referral_code "AB12CD34") ∧
    (create_user_profile vendorNoProfile "AB12CD34").user_type =
      vendorNoProfile.user_type :=
  referral_code_assignment_paths.2.2.2.2.2 vendorNoProfile "AB12CD34" rfl

end AllEase
